import Mathlib

/-! Location-proxy handler (`api/ip-location.js`).

A shallow embedding of the serverless handler that proxies IP-API requests,
followed by theorems about its observable behaviour: the responses it sends,
the upstream calls it makes and the address it derives from the request.

The handler is modelled by explicit state passing.  The state (`World`)
holds the response object `res`, the list of upstream calls issued through
`fetch`, and the errors written to the console.  The upstream provider is an
oracle `Env.fetch` mapping the outgoing request to its outcome.
-/

set_option autoImplicit false

namespace IpLocation

/-! ## Values -/

/-- JSON values: what `response.json()` resolves to and what `res.json` serialises. -/
inductive Json where
  | null
  | bool (b : Bool)
  | num (q : Rat)
  | str (s : String)
  | arr (items : List Json)
  | obj (fields : List (String × Json))

/-- The JavaScript values an address expression can take in the handler:
`undefined` (missing header or property), `null` (the else branch of the
ternary on line 28) or a string. -/
inductive JsVal where
  | undefined
  | null
  | str (s : String)
  deriving DecidableEq

namespace JsVal

/-- JavaScript truthiness, restricted to the three shapes of `JsVal`:
only a non-empty string is truthy. -/
def truthy : JsVal → Bool
  | str s => decide (s ≠ "")
  | _ => false

/-- The `||` operator: the left operand if it is truthy, else the right one. -/
def or (a b : JsVal) : JsVal :=
  if a.truthy then a else b

/-- A header or property read: a missing entry reads as `undefined`. -/
def ofOption : Option String → JsVal
  | none => undefined
  | some s => str s

/-- String conversion as performed by a template literal. -/
def toStr : JsVal → String
  | undefined => "undefined"
  | null => "null"
  | str s => s

/-- The value as a property of a serialised object: `JSON.stringify` omits a
property whose value is `undefined`. -/
def toJson? : JsVal → Option Json
  | undefined => none
  | null => some Json.null
  | str s => some (Json.str s)

end JsVal

/-! ## String operations used by the handler -/

/-- The white space and line terminator code points removed by
`String.prototype.trim`. -/
def isJsWhiteSpace (c : Char) : Bool :=
  decide (c.toNat ∈ [9, 10, 11, 12, 13, 32, 160, 5760, 8232, 8233, 8239, 8287, 12288, 65279])
    || (decide (8192 ≤ c.toNat) && decide (c.toNat ≤ 8202))

/-- The characters of `s.split(sep)[0]`: everything before the first `sep`. -/
def splitHead (sep : Char) (cs : List Char) : List Char :=
  cs.takeWhile (fun c => c != sep)

/-- The characters of `s.trim()`. -/
def jsTrim (cs : List Char) : List Char :=
  ((cs.dropWhile isJsWhiteSpace).reverse.dropWhile isJsWhiteSpace).reverse

/-- The characters of `s.replace(/^\[|\]$/g, '')`: one `[` at the very start
is removed, and one `]` at the very end is removed. -/
def stripBrackets (cs : List Char) : List Char :=
  let rest := match cs with
    | '[' :: t => t
    | _ => cs
  if rest.getLast? = some ']' then rest.dropLast else rest

/-- Lines 34 and 36: `userIP.split(',')[0].trim()` followed by
`.replace(/^\[|\]$/g, '').split(':')[0]`. -/
def cleanAddress (userIP : String) : String :=
  String.mk (splitHead ':' (stripBrackets (jsTrim (splitHead ',' userIP.data))))

/-! ## Request, environment and response -/

/-- A socket object, of which only `remoteAddress` is read. -/
structure Socket where
  remoteAddress : Option String

/-- The object `req.connection`: its own `remoteAddress` and an optional
nested `socket`. -/
structure Connection where
  remoteAddress : Option String
  socket : Option Socket

/-- The inbound request `req`. -/
structure Request where
  method : String
  headers : String → Option String
  connection : Option Connection
  socket : Option Socket

/-- The argument of the `fetch` call. -/
structure FetchRequest where
  url : String
  method : String
  headers : List (String × String)
  deriving DecidableEq

/-- What the `fetch` call and the later `response.json()` do: the fetch
promise rejects, or it resolves to a response with its `ok` flag, its status
and the result of parsing its body (`none` when `json()` rejects). -/
inductive FetchOutcome where
  | rejected
  | responded (ok : Bool) (status : Nat) (body : Option Json)

/-- The environment of one invocation: `process.env.NODE_ENV` and the
upstream provider behind `fetch`. -/
structure Env where
  nodeEnv : Option String
  fetch : FetchRequest → FetchOutcome

/-- The errors thrown inside the `try` block. -/
inductive JsError where
  | fetchRejected
  | badStatus (status : Nat)
  | jsonParse
  | typeError
  deriving DecidableEq

/-- The body of a sent response: nothing (`end()`) or a serialised value
(`json(value)`). -/
inductive Body where
  | empty
  | json (value : Json)

/-- A response as it goes out: status, headers at the time of sending, body. -/
structure Response where
  status : Nat
  headers : List (String × String)
  body : Body

/-- The response object `res`: headers set so far, current status code and
the responses sent. -/
structure Res where
  headers : List (String × String)
  statusCode : Nat
  sent : List Response

namespace Res

/-- A fresh response object: no headers, status 200, nothing sent. -/
def fresh : Res := ⟨[], 200, []⟩

/-- The call `res.setHeader(name, value)`: replaces an earlier value of the header. -/
def setHeader (r : Res) (name value : String) : Res :=
  { r with headers := r.headers.filter (fun h => h.1 != name) ++ [(name, value)] }

/-- The call `res.status(code)`. -/
def status (r : Res) (code : Nat) : Res :=
  { r with statusCode := code }

/-- The call `res.end()`: sends the response without a body. -/
def endResponse (r : Res) : Res :=
  { r with sent := r.sent ++ [⟨r.statusCode, r.headers, Body.empty⟩] }

/-- The call `res.json(value)`: sends the response with a JSON body. -/
def json (r : Res) (value : Json) : Res :=
  { r with sent := r.sent ++ [⟨r.statusCode, r.headers, Body.json value⟩] }

end Res

/-- The observable state of one invocation. -/
structure World where
  res : Res
  calls : List FetchRequest
  logged : List JsError

/-- The state in which the handler starts. -/
def World.init : World := ⟨Res.fresh, [], []⟩

/-! ## JSON objects -/

/-- Property assignment on the field list of an object: an existing key
keeps its place and takes the new value, a new key goes last. -/
def setField (k : String) (v : Json) : List (String × Json) → List (String × Json)
  | [] => [(k, v)]
  | (k', v') :: t => if k' = k then (k, v) :: t else (k', v') :: setField k v t

/-- The fields of an object literal as serialised: properties whose value is
`undefined` are left out. -/
def definedProps (ps : List (String × Option Json)) : List (String × Json) :=
  ps.filterMap (fun p => p.2.map (fun v => (p.1, v)))

namespace Json

/-- Property read on a JSON value: `none` when the value is not an object or
has no such key. -/
def get? : Json → String → Option Json
  | obj fs, k => (fs.find? (fun p => p.1 == k)).map Prod.snd
  | _, _ => none

/-- Whether the serialised value is an object with the given key. -/
def hasField (j : Json) (k : String) : Bool :=
  (j.get? k).isSome

end Json

/-! ## The handler -/

/-- Lines 24 to 28: the candidate address, first truthy operand of the `||`
chain (or the last operand when none is truthy). -/
def userIP (req : Request) : JsVal :=
  ((((JsVal.ofOption (req.headers "x-forwarded-for")).or
      (JsVal.ofOption (req.headers "x-real-ip"))).or
      (match req.connection with
        | none => JsVal.undefined
        | some c => JsVal.ofOption c.remoteAddress)).or
      (match req.socket with
        | none => JsVal.undefined
        | some s => JsVal.ofOption s.remoteAddress)).or
      (match req.connection with
        | none => JsVal.null
        | some c =>
          match c.socket with
          | none => JsVal.null
          | some s => JsVal.ofOption s.remoteAddress)

/-- Lines 31 to 37: the cleaned address. -/
def cleanIP (req : Request) : JsVal :=
  match userIP req with
  | JsVal.str s => if (JsVal.str s).truthy then JsVal.str (cleanAddress s) else JsVal.str s
  | v => v

/-- Lines 40 to 43: the URL of the upstream call. -/
def apiUrl (req : Request) : String :=
  if (cleanIP req).truthy ∧ cleanIP req ≠ JsVal.str "127.0.0.1" ∧ cleanIP req ≠ JsVal.str "::1" then
    "http://ip-api.com/json/" ++ (cleanIP req).toStr
  else
    "http://ip-api.com/json"

/-- Lines 46 to 51: the argument of `fetch`. -/
def fetchRequest (req : Request) : FetchRequest :=
  ⟨apiUrl req, "GET", [("User-Agent", "Mozilla/5.0 (compatible; Geolocation-App/1.0)")]⟩

/-- Lines 61 to 68: the debug object, as serialised. -/
def debugInfo (req : Request) : Json :=
  Json.obj (definedProps
    [("userIP", (cleanIP req).toJson?),
     ("apiUrl", some (Json.str (apiUrl req))),
     ("headers", some (Json.obj (definedProps
        [("x-forwarded-for", (req.headers "x-forwarded-for").map Json.str),
         ("x-real-ip", (req.headers "x-real-ip").map Json.str)])))])

/-- The assignment `data._debug = ...` in module (strict) code, seen through
the later serialisation: an object gets the property; an array accepts it but
does not serialise it; `null` and primitives throw a `TypeError`. -/
def assignDebug (data : Json) (dbg : Json) : Except JsError Json :=
  match data with
  | Json.obj fs => Except.ok (Json.obj (setField "_debug" dbg fs))
  | Json.arr items => Except.ok (Json.arr items)
  | _ => Except.error JsError.typeError

/-- Lines 77 to 92: the fallback record. -/
def fallbackRecord : Json :=
  Json.obj
    [("query", Json.str "Unknown"),
     ("status", Json.str "success"),
     ("country", Json.str "Demo Country"),
     ("countryCode", Json.str "XX"),
     ("region", Json.str "XX"),
     ("regionName", Json.str "Demo Region"),
     ("city", Json.str "Demo City"),
     ("zip", Json.str "00000"),
     ("lat", Json.num 0),
     ("lon", Json.num 0),
     ("timezone", Json.str "UTC"),
     ("isp", Json.str "Demo ISP"),
     ("org", Json.str "Demo Organization"),
     ("as", Json.str "Demo AS")]

/-- Lines 22 to 72: the `try` block, returning the state it reached and
whether it completed normally or threw. -/
def tryBlock (env : Env) (req : Request) (w : World) : World × Except JsError Unit :=
  let w1 : World := { w with calls := w.calls ++ [fetchRequest req] }
  match env.fetch (fetchRequest req) with
  | FetchOutcome.rejected => (w1, Except.error JsError.fetchRejected)
  | FetchOutcome.responded ok status body =>
    if ok = false then (w1, Except.error (JsError.badStatus status))
    else
      match body with
      | none => (w1, Except.error JsError.jsonParse)
      | some data =>
        match (if env.nodeEnv = some "development" then assignDebug data (debugInfo req)
               else Except.ok data) with
        | Except.error e => (w1, Except.error e)
        | Except.ok out => ({ w1 with res := (w1.res.status 200).json out }, Except.ok ())

/-- Lines 4 to 94: the handler, returning the final state and its completion
(normal, or an error escaping to the caller). -/
def handler (env : Env) (req : Request) : World × Except JsError Unit :=
  let w0 : World :=
    { World.init with
      res := ((World.init.res.setHeader "Access-Control-Allow-Origin" "*").setHeader
        "Access-Control-Allow-Methods" "GET, OPTIONS").setHeader
        "Access-Control-Allow-Headers" "Content-Type" }
  if req.method = "OPTIONS" then
    ({ w0 with res := (w0.res.status 200).endResponse }, Except.ok ())
  else if req.method ≠ "GET" then
    ({ w0 with res := (w0.res.status 405).json (Json.obj [("error", Json.str "Method not allowed")]) },
      Except.ok ())
  else
    match tryBlock env req w0 with
    | (w1, Except.ok ()) => (w1, Except.ok ())
    | (w1, Except.error e) =>
      ({ w1 with
          logged := w1.logged ++ [e]
          res := (w1.res.status 200).json fallbackRecord },
        Except.ok ())

/-- The three CORS headers set on lines 6 to 8. -/
def corsHeaders : List (String × String) :=
  [("Access-Control-Allow-Origin", "*"),
   ("Access-Control-Allow-Methods", "GET, OPTIONS"),
   ("Access-Control-Allow-Headers", "Content-Type")]

/-! ## Notions used to state the properties -/

/-- An upstream failure: the fetch rejects, the response is not `ok`, or its
body does not parse as JSON. -/
def FetchOutcome.failed : FetchOutcome → Bool
  | FetchOutcome.rejected => true
  | FetchOutcome.responded ok _ body => !ok || body.isNone

/-- The field names of a location record. -/
def locationFields : List String :=
  ["query", "status", "country", "countryCode", "region", "regionName", "city", "zip",
   "lat", "lon", "timezone", "isp", "org", "as"]

/-- A well-formed location record: a JSON object whose keys are the fourteen
field names of a location record, each once, in any order. -/
def Json.isLocationRecord : Json → Prop
  | Json.obj fs => (fs.map Prod.fst).Perm locationFields
  | _ => False

/-- The five places an address is looked for, in the order of lines 24 to 28:
the `x-forwarded-for` header, the `x-real-ip` header, `connection.remoteAddress`,
`socket.remoteAddress` and `connection.socket.remoteAddress`; `none` stands
for a source that is absent. -/
def addressSources (req : Request) : List (Option String) :=
  [req.headers "x-forwarded-for",
   req.headers "x-real-ip",
   req.connection.bind Connection.remoteAddress,
   req.socket.bind Socket.remoteAddress,
   (req.connection.bind Connection.socket).bind Socket.remoteAddress]

/-- The first value of a list of sources that is present and non-empty. -/
def firstNonEmpty : List (Option String) → Option String
  | [] => none
  | none :: rest => firstNonEmpty rest
  | some s :: rest => if s ≠ "" then some s else firstNonEmpty rest

/-- A header map holding the given `x-forwarded-for` and `x-real-ip` values
and nothing else. -/
def headersOf (xff xri : Option String) : String → Option String :=
  fun k => if k = "x-forwarded-for" then xff else if k = "x-real-ip" then xri else none

/-- A GET request behind two proxies, with an `x-real-ip` header and a
connection address as well. -/
def proxiedRequest : Request :=
  ⟨"GET", headersOf (some "1.2.3.4, 5.6.7.8") (some "9.9.9.9"),
    some ⟨some "10.0.0.1", none⟩, some ⟨some "10.0.0.1"⟩⟩

/-- A GET request with the given `x-forwarded-for` value and nothing else. -/
def forwardedRequest (xff : String) : Request :=
  ⟨"GET", headersOf (some xff) none, none, none⟩

/-- A request with the given method, no address header and the given address
on `socket.remoteAddress` only. -/
def socketRequest (method : String) (addr : String) : Request :=
  ⟨method, headersOf none none, none, some ⟨some addr⟩⟩

/-- A location record as IP-API returns it. -/
def sampleRecord : Json :=
  Json.obj
    [("status", Json.str "success"),
     ("country", Json.str "United States"),
     ("countryCode", Json.str "US"),
     ("region", Json.str "CA"),
     ("regionName", Json.str "California"),
     ("city", Json.str "Mountain View"),
     ("zip", Json.str "94043"),
     ("lat", Json.num 37),
     ("lon", Json.num (-122)),
     ("timezone", Json.str "America/Los_Angeles"),
     ("isp", Json.str "Google LLC"),
     ("org", Json.str "Google Public DNS"),
     ("as", Json.str "AS15169 Google LLC"),
     ("query", Json.str "8.8.8.8")]

/-- An environment with the given NODE_ENV whose upstream answers every call
with the given outcome. -/
def constEnv (nodeEnv : Option String) (outcome : FetchOutcome) : Env :=
  ⟨nodeEnv, fun _ => outcome⟩

/-! ## The reference normalisation -/

/-- Everything before the first occurrence of `sep` (the whole list when
`sep` does not occur). -/
def beforeFirst (sep : Char) : List Char → List Char
  | [] => []
  | c :: cs => if c = sep then [] else c :: beforeFirst sep cs

/-- Removal of the white space at the start. -/
def trimStart : List Char → List Char
  | [] => []
  | c :: cs => if isJsWhiteSpace c = true then trimStart cs else c :: cs

/-- Removal of the white space at the end. -/
def trimEnd (cs : List Char) : List Char :=
  (trimStart cs.reverse).reverse

/-- Removal of one leading `[`, if present. -/
def removeLeadingOpen : List Char → List Char
  | '[' :: t => t
  | cs => cs

/-- Removal of one trailing `]`, if present. -/
def removeTrailingClose (cs : List Char) : List Char :=
  match cs.reverse with
  | ']' :: t => t.reverse
  | _ => cs

/-- The reference definition of the derived address: the first
comma-separated token, trimmed, without one leading `[` and one trailing `]`,
cut before its first `:`. -/
def referenceAddress (s : String) : String :=
  String.mk (beforeFirst ':' (removeTrailingClose (removeLeadingOpen
    (trimEnd (trimStart (beforeFirst ',' s.data))))))

/-! ## IP literals and sample upstream bodies -/

/-- The pieces of a string between the occurrences of `sep`. -/
def piecesBetween (sep : Char) : List Char → List (List Char)
  | [] => [[]]
  | c :: cs =>
    if c = sep then [] :: piecesBetween sep cs
    else
      match piecesBetween sep cs with
      | [] => [[c]]
      | p :: ps => (c :: p) :: ps

/-- A decimal octet: one to three decimal digits of value at most 255. -/
def isOctet (cs : List Char) : Bool :=
  decide (0 < cs.length) && decide (cs.length ≤ 3) && cs.all Char.isDigit &&
    decide (cs.foldl (fun n c => 10 * n + (c.toNat - 48)) 0 ≤ 255)

/-- A dotted IPv4 address: four decimal octets separated by dots. -/
def isIPv4Literal (s : String) : Bool :=
  decide ((piecesBetween '.' s.data).length = 4) && (piecesBetween '.' s.data).all isOctet

/-- A permissive reading of an IPv6 address in text form: hexadecimal digits,
colons and dots only, with two to seven colons. -/
def isIPv6Literal (s : String) : Bool :=
  s.data.all (fun c => c.isDigit || (decide ('a' ≤ c) && decide (c ≤ 'f')) ||
      (decide ('A' ≤ c) && decide (c ≤ 'F')) || c == ':' || c == '.') &&
    decide (2 ≤ s.data.count ':') && decide (s.data.count ':' ≤ 7)

/-- A single IP literal: a dotted IPv4 address or an IPv6 address. -/
def isIPLiteral (s : String) : Bool :=
  isIPv4Literal s || isIPv6Literal s

/-- The body IP-API returns, with status 200, for a query it cannot resolve. -/
def invalidQueryBody : Json :=
  Json.obj [("status", Json.str "fail"), ("message", Json.str "invalid query")]

/-! ## The client-side services (`src/services/api.js`) -/

/-- The part of an axios response the services read. -/
structure AxiosResponse where
  status : Nat
  data : Json

/-- The call `axios.get(url, { params })` as an oracle: it resolves to a
response or rejects with an error of type `ε`. -/
def AxiosGet (ε : Type) : Type :=
  String → List (String × Json) → Except ε AxiosResponse

/-- The constant `IP_API_BASE_URL`. -/
def IP_API_BASE_URL : String := "http://ip-api.com/json"

/-- The constant `NOMINATIM_BASE_URL`. -/
def NOMINATIM_BASE_URL : String := "https://nominatim.openstreetmap.org"

/-- The mock record returned by `getIPLocationData` on failure (lines 22 to 37). -/
def mockRecord : Json :=
  Json.obj
    [("query", Json.str "8.8.8.8"),
     ("status", Json.str "success"),
     ("country", Json.str "United States"),
     ("countryCode", Json.str "US"),
     ("region", Json.str "CA"),
     ("regionName", Json.str "California"),
     ("city", Json.str "Mountain View"),
     ("zip", Json.str "94035"),
     ("lat", Json.num (37386 / 1000)),
     ("lon", Json.num (-1220838 / 10000)),
     ("timezone", Json.str "America/Los_Angeles"),
     ("isp", Json.str "Google LLC"),
     ("org", Json.str "Google Public DNS"),
     ("as", Json.str "AS15169 Google LLC")]

/-- The function `getIPLocationData`: the settled value of the promise it
returns (`ok` when it resolves, `error` when it rejects). -/
def getIPLocationData {ε : Type} (axiosGet : AxiosGet ε) : Except ε Json :=
  match axiosGet IP_API_BASE_URL [] with
  | Except.ok response => Except.ok response.data
  | Except.error _ => Except.ok mockRecord

/-- The function `getAddressFromCoordinates`. -/
def getAddressFromCoordinates {ε : Type} (axiosGet : AxiosGet ε) (lat lon : Json) :
    Except ε Json :=
  match axiosGet (NOMINATIM_BASE_URL ++ "/reverse")
      [("lat", lat), ("lon", lon), ("format", Json.str "json"), ("addressdetails", Json.num 1)] with
  | Except.ok response => Except.ok response.data
  | Except.error error => Except.error error

/-- The function `getNearbyPlaces`; its `radius` parameter is not used. -/
def getNearbyPlaces {ε : Type} (axiosGet : AxiosGet ε) (lat lon : Json) : Except ε Json :=
  match axiosGet (NOMINATIM_BASE_URL ++ "/search")
      [("lat", lat), ("lon", lon), ("format", Json.str "json"), ("limit", Json.num 10),
       ("addressdetails", Json.num 1), ("extratags", Json.num 1)] with
  | Except.ok response => Except.ok response.data
  | Except.error error => Except.error error

/-- The function `searchLocation`. -/
def searchLocation {ε : Type} (axiosGet : AxiosGet ε) (query : Json) : Except ε Json :=
  match axiosGet (NOMINATIM_BASE_URL ++ "/search")
      [("q", query), ("format", Json.str "json"), ("limit", Json.num 5),
       ("addressdetails", Json.num 1)] with
  | Except.ok response => Except.ok response.data
  | Except.error error => Except.error error

/-- An axios whose every request fails with the given error. -/
def failingAxios (error : String) : AxiosGet String :=
  fun _ _ => Except.error error

/-- An axios whose every request succeeds with the given data. -/
def succeedingAxios (data : Json) : AxiosGet String :=
  fun _ _ => Except.ok ⟨200, data⟩

/-! ## The URL construction without the IPv6 loopback comparison -/

/-- Lines 40 to 43 with the condition `cleanIP && cleanIP !== '127.0.0.1'`,
that is without the comparison of the cleaned address with `'::1'`. -/
def apiUrlShortCondition (req : Request) : String :=
  if (cleanIP req).truthy ∧ cleanIP req ≠ JsVal.str "127.0.0.1" then
    "http://ip-api.com/json/" ++ (cleanIP req).toStr
  else
    "http://ip-api.com/json"

/-- A GET request with the given `x-forwarded-for` value, an `x-real-ip`
header and a connection address. -/
def shadowedRequest (xff : String) : Request :=
  ⟨"GET", headersOf (some xff) (some "9.9.9.9"), some ⟨some "10.0.0.1", none⟩,
    some ⟨some "10.0.0.1"⟩⟩

/-! ## Basic facts -/

theorem initial_res :
    ((Res.fresh.setHeader "Access-Control-Allow-Origin" "*").setHeader
        "Access-Control-Allow-Methods" "GET, OPTIONS").setHeader
        "Access-Control-Allow-Headers" "Content-Type" = ⟨corsHeaders, 200, []⟩ := by
  rfl

theorem handler_options (env : Env) (req : Request) (h : req.method = "OPTIONS") :
    handler env req =
      (⟨⟨corsHeaders, 200, [⟨200, corsHeaders, Body.empty⟩]⟩, [], []⟩, Except.ok ()) := by
  unfold handler
  simp only [World.init, initial_res, h, if_true]
  rfl

theorem handler_other (env : Env) (req : Request) (h1 : req.method ≠ "OPTIONS")
    (h2 : req.method ≠ "GET") :
    handler env req =
      (⟨⟨corsHeaders, 405,
          [⟨405, corsHeaders, Body.json (Json.obj [("error", Json.str "Method not allowed")])⟩]⟩,
        [], []⟩, Except.ok ()) := by
  unfold handler
  simp only [World.init, initial_res, h1, h2, if_false, if_true, ne_eq, not_false_eq_true]
  rfl

theorem handler_get (env : Env) (req : Request) (h : req.method = "GET") :
    handler env req =
      match tryBlock env req ⟨⟨corsHeaders, 200, []⟩, [], []⟩ with
      | (w1, Except.ok ()) => (w1, Except.ok ())
      | (w1, Except.error e) =>
        ({ w1 with
            logged := w1.logged ++ [e]
            res := (w1.res.status 200).json fallbackRecord },
          Except.ok ()) := by
  have h1 : ¬ ("GET" = "OPTIONS") := by decide
  unfold handler
  simp only [World.init, initial_res, h, h1, if_false, ne_eq, not_true_eq_false]

theorem tryBlock_failed (env : Env) (req : Request) (w : World)
    (h : (env.fetch (fetchRequest req)).failed = true) :
    ∃ e, tryBlock env req w =
      ({ w with calls := w.calls ++ [fetchRequest req] }, Except.error e) := by
  unfold tryBlock
  cases hf : env.fetch (fetchRequest req) with
  | rejected => exact ⟨JsError.fetchRejected, rfl⟩
  | responded ok status body =>
    rw [hf] at h
    cases ok with
    | false => exact ⟨JsError.badStatus status, by simp⟩
    | true =>
      cases body with
      | none => exact ⟨JsError.jsonParse, by simp⟩
      | some data => simp [FetchOutcome.failed] at h

theorem handler_failed (env : Env) (req : Request) (hget : req.method = "GET")
    (h : (env.fetch (fetchRequest req)).failed = true) :
    ∃ e, handler env req =
      (⟨⟨corsHeaders, 200, [⟨200, corsHeaders, Body.json fallbackRecord⟩]⟩,
        [fetchRequest req], [e]⟩, Except.ok ()) := by
  obtain ⟨e, he⟩ := tryBlock_failed env req ⟨⟨corsHeaders, 200, []⟩, [], []⟩ h
  refine ⟨e, ?_⟩
  rw [handler_get env req hget, he]
  rfl

theorem handler_get_shape (env : Env) (req : Request) (hget : req.method = "GET") :
    ∃ body logged, handler env req =
      (⟨⟨corsHeaders, 200, [⟨200, corsHeaders, Body.json body⟩]⟩,
        [fetchRequest req], logged⟩, Except.ok ()) := by
  rw [handler_get env req hget]
  unfold tryBlock
  cases hf : env.fetch (fetchRequest req) with
  | rejected => exact ⟨fallbackRecord, [JsError.fetchRejected], rfl⟩
  | responded ok status body =>
    cases ok with
    | false => exact ⟨fallbackRecord, [JsError.badStatus status], rfl⟩
    | true =>
      cases body with
      | none => exact ⟨fallbackRecord, [JsError.jsonParse], rfl⟩
      | some data =>
        by_cases hdev : env.nodeEnv = some "development"
        · cases data with
          | obj fs =>
            exact ⟨Json.obj (setField "_debug" (debugInfo req) fs), [], by
              simp [hdev, assignDebug, Res.status, Res.json]⟩
          | arr items =>
            exact ⟨Json.arr items, [], by simp [hdev, assignDebug, Res.status, Res.json]⟩
          | null =>
            exact ⟨fallbackRecord, [JsError.typeError], by
              simp [hdev, assignDebug, Res.status, Res.json]⟩
          | bool b =>
            exact ⟨fallbackRecord, [JsError.typeError], by
              simp [hdev, assignDebug, Res.status, Res.json]⟩
          | num q =>
            exact ⟨fallbackRecord, [JsError.typeError], by
              simp [hdev, assignDebug, Res.status, Res.json]⟩
          | str t =>
            exact ⟨fallbackRecord, [JsError.typeError], by
              simp [hdev, assignDebug, Res.status, Res.json]⟩
        · exact ⟨data, [], by simp [hdev, Res.status, Res.json]⟩

theorem handler_success (env : Env) (req : Request) (st : Nat) (fs : List (String × Json))
    (hget : req.method = "GET")
    (hok : env.fetch (fetchRequest req) = FetchOutcome.responded true st (some (Json.obj fs))) :
    (handler env req).1.res.sent =
      [⟨200, corsHeaders, Body.json
        (if env.nodeEnv = some "development" then
          Json.obj (setField "_debug" (debugInfo req) fs) else Json.obj fs)⟩] := by
  rw [handler_get env req hget]
  unfold tryBlock
  rw [hok]
  by_cases hdev : env.nodeEnv = some "development"
  · simp [hdev, assignDebug, Res.status, Res.json]
  · simp [hdev, Res.status, Res.json]

theorem find_setField_ne (k key : String) (v : Json) (fs : List (String × Json))
    (h : key ≠ k) :
    (setField k v fs).find? (fun p => p.1 == key) = fs.find? (fun p => p.1 == key) := by
  have hk : (k == key) = false := beq_eq_false_iff_ne.mpr (fun e => h e.symm)
  induction fs with
  | nil => simp [setField, List.find?_cons, hk]
  | cons p t ih =>
    obtain ⟨k', v'⟩ := p
    by_cases hk1 : k' = k
    · subst hk1
      simp [setField, List.find?_cons, hk]
    · by_cases hkey : k' = key
      · subst hkey
        simp [setField, hk1, List.find?_cons]
      · have hkey' : (k' == key) = false := beq_eq_false_iff_ne.mpr hkey
        simp [setField, hk1, List.find?_cons, hkey', ih]

theorem find_setField_self (k : String) (v : Json) (fs : List (String × Json)) :
    ((setField k v fs).find? (fun p => p.1 == k)).isSome = true := by
  induction fs with
  | nil => simp [setField, List.find?_cons]
  | cons p t ih =>
    obtain ⟨k', v'⟩ := p
    by_cases hk : k' = k
    · simp [setField, hk, List.find?_cons]
    · have hk' : (k' == k) = false := beq_eq_false_iff_ne.mpr hk
      simp [setField, hk, List.find?_cons, hk', ih]

theorem find_absent (k : String) (fs : List (String × Json)) (h : k ∉ fs.map Prod.fst) :
    fs.find? (fun p => p.1 == k) = none := by
  rw [List.find?_eq_none]
  intro p hp hpk
  apply h
  have : p.1 = k := by simpa using hpk
  rw [← this]
  exact List.mem_map_of_mem Prod.fst hp

/-! ## Facts about the address derivation -/

theorem splitHead_of_not_mem (sep : Char) (cs : List Char) (h : sep ∉ cs) :
    splitHead sep cs = cs := by
  unfold splitHead
  rw [List.takeWhile_eq_self_iff]
  intro c hc
  have hne : c ≠ sep := fun e => h (e ▸ hc)
  simpa using hne

theorem stripBrackets_of_no_bracket (cs : List Char) (h1 : '[' ∉ cs) (h2 : ']' ∉ cs) :
    stripBrackets cs = cs := by
  have hlast : ¬ (cs.getLast? = some ']') := fun e => h2 (List.mem_of_getLast?_eq_some e)
  unfold stripBrackets
  split
  · rename_i t
    exact absurd (List.mem_cons_self _ _) h1
  · simp only [hlast, if_false]

theorem or_of_truthy (a b : JsVal) (h : a.truthy = true) : a.or b = a := by
  simp [JsVal.or, h]

theorem or_of_falsy (a b : JsVal) (h : a.truthy = false) : a.or b = b := by
  simp [JsVal.or, h]

theorem or_assoc (a b c : JsVal) : (a.or b).or c = a.or (b.or c) := by
  cases ha : a.truthy
  · rw [or_of_falsy a b ha, or_of_falsy a _ ha]
  · rw [or_of_truthy a b ha, or_of_truthy a c ha, or_of_truthy a _ ha]

theorem truthy_str (s : String) (h : s ≠ "") : (JsVal.str s).truthy = true := by
  simp [JsVal.truthy, h]

theorem userIP_of_forwarded (req : Request) (v : String)
    (hx : req.headers "x-forwarded-for" = some v) (hv : v ≠ "") :
    userIP req = JsVal.str v := by
  unfold userIP
  rw [hx]
  have h := truthy_str v hv
  simp only [JsVal.ofOption]
  rw [or_of_truthy _ _ h, or_of_truthy _ _ h, or_of_truthy _ _ h, or_of_truthy _ _ h]

theorem cleanIP_of_str (req : Request) (s : String) (hu : userIP req = JsVal.str s)
    (hs : s ≠ "") : cleanIP req = JsVal.str (cleanAddress s) := by
  unfold cleanIP
  rw [hu]
  simp [truthy_str s hs]

theorem cleanIP_of_falsy (req : Request) (hu : (userIP req).truthy = false) :
    cleanIP req = userIP req := by
  unfold cleanIP
  cases h : userIP req with
  | undefined => rfl
  | null => rfl
  | str s =>
    rw [h] at hu
    simp [hu]

theorem apiUrl_of_falsy (req : Request) (h : (cleanIP req).truthy = false) :
    apiUrl req = "http://ip-api.com/json" := by
  unfold apiUrl
  simp [h]

theorem handler_get_calls (env : Env) (req : Request) (hget : req.method = "GET") :
    (handler env req).1.calls = [fetchRequest req] := by
  obtain ⟨body, logged, hh⟩ := handler_get_shape env req hget
  rw [hh]

/-- The invariant linking a value of the `||` chain to the sources it stands
for: it is the first non-empty source if there is one, and falsy otherwise. -/
theorem or_firstNonEmpty (o : Option String) (x : JsVal) (rest : List (Option String))
    (h1 : ∀ s, firstNonEmpty rest = some s → x = JsVal.str s)
    (h2 : firstNonEmpty rest = none → x.truthy = false) :
    (∀ s, firstNonEmpty (o :: rest) = some s → (JsVal.ofOption o).or x = JsVal.str s) ∧
      (firstNonEmpty (o :: rest) = none → ((JsVal.ofOption o).or x).truthy = false) := by
  cases o with
  | none =>
    have hf : (JsVal.ofOption none).truthy = false := rfl
    rw [or_of_falsy _ x hf]
    exact ⟨h1, h2⟩
  | some v =>
    by_cases hv : v = ""
    · have hf : (JsVal.ofOption (some v)).truthy = false := by
        simp [JsVal.ofOption, JsVal.truthy, hv]
      rw [or_of_falsy _ x hf]
      have he : firstNonEmpty (some v :: rest) = firstNonEmpty rest := by
        simp [firstNonEmpty, hv]
      rw [he]
      exact ⟨h1, h2⟩
    · have ht : (JsVal.ofOption (some v)).truthy = true := truthy_str v hv
      rw [or_of_truthy _ x ht]
      have he : firstNonEmpty (some v :: rest) = some v := by
        simp [firstNonEmpty, hv]
      rw [he]
      refine ⟨?_, ?_⟩
      · intro s hs
        cases hs
        rfl
      · intro hn
        cases hn

theorem connection_read (conn : Option Connection) :
    (match conn with
      | none => JsVal.undefined
      | some c => JsVal.ofOption c.remoteAddress) =
      JsVal.ofOption (conn.bind Connection.remoteAddress) := by
  cases conn <;> rfl

theorem socket_read (sock : Option Socket) :
    (match sock with
      | none => JsVal.undefined
      | some s => JsVal.ofOption s.remoteAddress) =
      JsVal.ofOption (sock.bind Socket.remoteAddress) := by
  cases sock <;> rfl

theorem nested_socket_read (conn : Option Connection) :
    (∀ s, firstNonEmpty
        [(conn.bind Connection.socket).bind Socket.remoteAddress] = some s →
        (match conn with
          | none => JsVal.null
          | some c =>
            match c.socket with
            | none => JsVal.null
            | some s => JsVal.ofOption s.remoteAddress) = JsVal.str s) ∧
      (firstNonEmpty [(conn.bind Connection.socket).bind Socket.remoteAddress] = none →
        (match conn with
          | none => JsVal.null
          | some c =>
            match c.socket with
            | none => JsVal.null
            | some s => JsVal.ofOption s.remoteAddress).truthy = false) := by
  cases conn with
  | none => simp [firstNonEmpty, JsVal.truthy]
  | some c =>
    obtain ⟨ra, sko⟩ := c
    cases sko with
    | none => simp [firstNonEmpty, JsVal.truthy]
    | some sk =>
      obtain ⟨r⟩ := sk
      cases r with
      | none => simp [firstNonEmpty, JsVal.truthy, JsVal.ofOption]
      | some v =>
        by_cases hv : v = ""
        · simp [firstNonEmpty, JsVal.truthy, JsVal.ofOption, hv]
        · simp [firstNonEmpty, JsVal.truthy, JsVal.ofOption, hv]

theorem userIP_firstNonEmpty (req : Request) :
    (∀ s, firstNonEmpty (addressSources req) = some s → userIP req = JsVal.str s) ∧
      (firstNonEmpty (addressSources req) = none → (userIP req).truthy = false) := by
  obtain ⟨m, hd, conn, sock⟩ := req
  have hlast := nested_socket_read conn
  unfold userIP addressSources
  simp only []
  rw [connection_read conn, socket_read sock, or_assoc, or_assoc, or_assoc]
  have h4 := or_firstNonEmpty (sock.bind Socket.remoteAddress) _ _ hlast.1 hlast.2
  have h3 := or_firstNonEmpty (conn.bind Connection.remoteAddress) _ _ h4.1 h4.2
  have h2 := or_firstNonEmpty (hd "x-real-ip") _ _ h3.1 h3.2
  exact or_firstNonEmpty (hd "x-forwarded-for") _ _ h2.1 h2.2

/-! ## Responses of the handler -/

/-- C1: for every GET request whose upstream call fails (the fetch rejects, the
response is not ok, or its body does not parse), whatever the headers, the
connection and the value of NODE_ENV, the handler sends exactly one response,
with status 200, the CORS headers and the fixed fallback record of fourteen
fields as body. -/
theorem fallback_on_upstream_failure (env : Env) (req : Request)
    (hget : req.method = "GET")
    (hfail : (env.fetch (fetchRequest req)).failed = true) :
    (handler env req).1.res.sent =
      [⟨200, corsHeaders, Body.json (Json.obj
        [("query", Json.str "Unknown"),
         ("status", Json.str "success"),
         ("country", Json.str "Demo Country"),
         ("countryCode", Json.str "XX"),
         ("region", Json.str "XX"),
         ("regionName", Json.str "Demo Region"),
         ("city", Json.str "Demo City"),
         ("zip", Json.str "00000"),
         ("lat", Json.num 0),
         ("lon", Json.num 0),
         ("timezone", Json.str "UTC"),
         ("isp", Json.str "Demo ISP"),
         ("org", Json.str "Demo Organization"),
         ("as", Json.str "Demo AS")])⟩] := by
  obtain ⟨e, he⟩ := handler_failed env req hget hfail
  rw [he]
  rfl

/-- C2: for every GET request whose upstream call succeeds with a well-formed
location record as body, the handler sends exactly one response, with status
200 and a body that agrees with the record on each of its fields, and the body
has a `_debug` field exactly when NODE_ENV is `development`. -/
theorem success_returns_upstream_record (env : Env) (req : Request) (st : Nat) (data : Json)
    (hget : req.method = "GET")
    (hok : env.fetch (fetchRequest req) = FetchOutcome.responded true st (some data))
    (hrec : data.isLocationRecord) :
    ∃ body, (handler env req).1.res.sent = [⟨200, corsHeaders, Body.json body⟩] ∧
      (∀ k ∈ locationFields, body.get? k = data.get? k) ∧
      (body.hasField "_debug" = true ↔ env.nodeEnv = some "development") := by
  cases data with
  | obj fs =>
    have hperm : (fs.map Prod.fst).Perm locationFields := hrec
    have hno : "_debug" ∉ fs.map Prod.fst := by
      intro hmem
      have : "_debug" ∈ locationFields := hperm.mem_iff.mp hmem
      revert this
      decide
    refine ⟨_, handler_success env req st fs hget hok, ?_, ?_⟩
    · intro k hk
      have hne : k ≠ "_debug" := by
        intro e
        rw [e] at hk
        revert hk
        decide
      by_cases hdev : env.nodeEnv = some "development"
      · simp only [hdev, if_true, Json.get?]
        rw [find_setField_ne "_debug" k _ fs hne]
      · simp only [hdev, if_false]
    · by_cases hdev : env.nodeEnv = some "development"
      · simp only [hdev, if_true, Json.hasField, Json.get?, iff_true]
        have hs := find_setField_self "_debug" (debugInfo req) fs
        cases hf : (setField "_debug" (debugInfo req) fs).find? (fun p => p.1 == "_debug") with
        | none => rw [hf] at hs; exact absurd hs (by simp)
        | some p => rfl
      · simp only [hdev, if_false, Json.hasField, Json.get?, iff_false,
          find_absent "_debug" fs hno]
        simp
  | null => exact absurd hrec (by simp [Json.isLocationRecord])
  | bool b => exact absurd hrec (by simp [Json.isLocationRecord])
  | num q => exact absurd hrec (by simp [Json.isLocationRecord])
  | str t => exact absurd hrec (by simp [Json.isLocationRecord])
  | arr items => exact absurd hrec (by simp [Json.isLocationRecord])

/-- C3: for every request whose method is neither GET nor OPTIONS, whatever
the headers, the connection, the upstream and NODE_ENV, the handler sends
exactly one response, with status 405 and body `{error: 'Method not allowed'}`,
and makes no upstream call. -/
theorem method_not_allowed (env : Env) (req : Request)
    (h1 : req.method ≠ "GET") (h2 : req.method ≠ "OPTIONS") :
    (handler env req).1.res.sent =
        [⟨405, corsHeaders, Body.json (Json.obj [("error", Json.str "Method not allowed")])⟩] ∧
      (handler env req).1.calls = [] := by
  rw [handler_other env req h2 h1]
  exact ⟨rfl, rfl⟩

/-- C4: for every request whose method is OPTIONS, whatever the headers, the
connection, the upstream and NODE_ENV, the handler sends exactly one response,
with status 200 and an empty body, and makes no upstream call. -/
theorem options_preflight (env : Env) (req : Request) (h : req.method = "OPTIONS") :
    (handler env req).1.res.sent = [⟨200, corsHeaders, Body.empty⟩] ∧
      (handler env req).1.calls = [] := by
  rw [handler_options env req h]
  exact ⟨rfl, rfl⟩

/-- C5: for every request and every upstream outcome the handler completes
normally (no error escapes), sends exactly one response, and the status of that
response is 405 exactly when the method is outside GET and OPTIONS, and 200 in
every other case. -/
theorem exactly_one_response (env : Env) (req : Request) :
    (handler env req).2 = Except.ok () ∧
      ∃ r, (handler env req).1.res.sent = [r] ∧
        (r.status = 405 ↔ (req.method ≠ "GET" ∧ req.method ≠ "OPTIONS")) ∧
        ((req.method = "GET" ∨ req.method = "OPTIONS") → r.status = 200) := by
  by_cases ho : req.method = "OPTIONS"
  · rw [handler_options env req ho]
    refine ⟨rfl, _, rfl, ?_, fun _ => rfl⟩
    simp [ho]
  · by_cases hg : req.method = "GET"
    · obtain ⟨body, logged, hh⟩ := handler_get_shape env req hg
      rw [hh]
      refine ⟨rfl, _, rfl, ?_, fun _ => rfl⟩
      simp [hg]
    · rw [handler_other env req ho hg]
      refine ⟨rfl, _, rfl, ?_, ?_⟩
      · simp [ho, hg]
      · intro h
        rcases h with h | h
        · exact absurd h hg
        · exact absurd h ho

/-- C6: whatever the request and the upstream outcome (OPTIONS, 405, upstream
success or fallback), the response sent carries the headers
Access-Control-Allow-Origin `*`, Access-Control-Allow-Methods `GET, OPTIONS`
and Access-Control-Allow-Headers `Content-Type`. -/
theorem cors_headers_on_every_path (env : Env) (req : Request) :
    ∃ r, (handler env req).1.res.sent = [r] ∧
      r.headers.lookup "Access-Control-Allow-Origin" = some "*" ∧
      r.headers.lookup "Access-Control-Allow-Methods" = some "GET, OPTIONS" ∧
      r.headers.lookup "Access-Control-Allow-Headers" = some "Content-Type" := by
  have hc : corsHeaders.lookup "Access-Control-Allow-Origin" = some "*" ∧
      corsHeaders.lookup "Access-Control-Allow-Methods" = some "GET, OPTIONS" ∧
      corsHeaders.lookup "Access-Control-Allow-Headers" = some "Content-Type" := by
    decide
  by_cases ho : req.method = "OPTIONS"
  · rw [handler_options env req ho]
    exact ⟨_, rfl, hc⟩
  · by_cases hg : req.method = "GET"
    · obtain ⟨body, logged, hh⟩ := handler_get_shape env req hg
      rw [hh]
      exact ⟨_, rfl, hc⟩
    · rw [handler_other env req ho hg]
      exact ⟨_, rfl, hc⟩

/-- Witness of C1: a proxied GET request in development mode whose upstream
answers 500 gets the fallback record. -/
theorem fallback_on_upstream_failure_witness :
    proxiedRequest.method = "GET" ∧
      ((constEnv (some "development") (FetchOutcome.responded false 500 none)).fetch
        (fetchRequest proxiedRequest)).failed = true ∧
      (handler (constEnv (some "development") (FetchOutcome.responded false 500 none))
        proxiedRequest).1.res.sent = [⟨200, corsHeaders, Body.json fallbackRecord⟩] :=
  ⟨rfl, rfl,
    fallback_on_upstream_failure
      (constEnv (some "development") (FetchOutcome.responded false 500 none)) proxiedRequest
      rfl rfl⟩

/-- Witness of C2: a proxied GET request in development mode whose upstream
answers with a location record. -/
theorem success_returns_upstream_record_witness :
    ∃ body,
      (handler (constEnv (some "development") (FetchOutcome.responded true 200 (some sampleRecord)))
        proxiedRequest).1.res.sent = [⟨200, corsHeaders, Body.json body⟩] ∧
      (∀ k ∈ locationFields, body.get? k = sampleRecord.get? k) ∧
      (body.hasField "_debug" = true ↔ some "development" = some "development") :=
  success_returns_upstream_record
    (constEnv (some "development") (FetchOutcome.responded true 200 (some sampleRecord)))
    proxiedRequest 200 sampleRecord rfl rfl
    (show (List.map Prod.fst _).Perm locationFields by decide)

/-- Witness of C3: a POST request. -/
theorem method_not_allowed_witness :
    (handler (constEnv none FetchOutcome.rejected) (socketRequest "POST" "203.0.113.5")).1.res.sent =
        [⟨405, corsHeaders, Body.json (Json.obj [("error", Json.str "Method not allowed")])⟩] ∧
      (handler (constEnv none FetchOutcome.rejected) (socketRequest "POST" "203.0.113.5")).1.calls
        = [] :=
  method_not_allowed (constEnv none FetchOutcome.rejected) (socketRequest "POST" "203.0.113.5")
    (by decide) (by decide)

/-- Witness of C4: an OPTIONS request. -/
theorem options_preflight_witness :
    (handler (constEnv none FetchOutcome.rejected)
        (socketRequest "OPTIONS" "203.0.113.5")).1.res.sent =
        [⟨200, corsHeaders, Body.empty⟩] ∧
      (handler (constEnv none FetchOutcome.rejected)
        (socketRequest "OPTIONS" "203.0.113.5")).1.calls = [] :=
  options_preflight (constEnv none FetchOutcome.rejected) (socketRequest "OPTIONS" "203.0.113.5")
    rfl

/-! ## The derived address and the upstream URL -/

/-- C7: when the `x-forwarded-for` header is `1.2.3.4, 5.6.7.8`, the cleaned
address is `1.2.3.4` whatever `x-real-ip` and the connection addresses are; and
for every `x-forwarded-for` value whose first comma-separated token, once
trimmed, is non-empty and has no `:` and no bracket, the cleaned address is
that trimmed token. -/
theorem forwarded_for_first_token (req : Request) (v : String)
    (hx : req.headers "x-forwarded-for" = some v) :
    (v = "1.2.3.4, 5.6.7.8" → cleanIP req = JsVal.str "1.2.3.4") ∧
      (jsTrim (splitHead ',' v.data) ≠ [] →
        ':' ∉ jsTrim (splitHead ',' v.data) →
        '[' ∉ jsTrim (splitHead ',' v.data) →
        ']' ∉ jsTrim (splitHead ',' v.data) →
        cleanIP req = JsVal.str (String.mk (jsTrim (splitHead ',' v.data)))) := by
  constructor
  · intro hv
    subst hv
    rw [cleanIP_of_str req _ (userIP_of_forwarded req _ hx (by decide)) (by decide)]
    decide
  · intro hne hcolon hopen hclose
    have hv : v ≠ "" := by
      intro e
      subst e
      exact hne rfl
    rw [cleanIP_of_str req v (userIP_of_forwarded req v hx hv) hv]
    unfold cleanAddress
    rw [stripBrackets_of_no_bracket _ hopen hclose, splitHead_of_not_mem _ _ hcolon]

/-- Witness of C7: the proxied request, which also carries an `x-real-ip`
header and connection addresses. -/
theorem forwarded_for_first_token_witness :
    cleanIP proxiedRequest = JsVal.str "1.2.3.4" ∧
      cleanIP (forwardedRequest "  203.0.113.5 ,10.0.0.1") = JsVal.str "203.0.113.5" :=
  ⟨(forwarded_for_first_token proxiedRequest "1.2.3.4, 5.6.7.8" rfl).1 rfl,
    (forwarded_for_first_token (forwardedRequest "  203.0.113.5 ,10.0.0.1")
      "  203.0.113.5 ,10.0.0.1" rfl).2 (by decide) (by decide) (by decide) (by decide)⟩

/-- C8: the candidate address is the first non-empty value among the
`x-forwarded-for` header, the `x-real-ip` header, `connection.remoteAddress`,
`socket.remoteAddress` and `connection.socket.remoteAddress`, in that order; and
when all five are absent or empty the candidate and the cleaned address are
falsy and the upstream URL is the bare base URL. -/
theorem candidate_address_order (req : Request) :
    (∀ s, firstNonEmpty (addressSources req) = some s → userIP req = JsVal.str s) ∧
      (firstNonEmpty (addressSources req) = none →
        (userIP req).truthy = false ∧ (cleanIP req).truthy = false ∧
          apiUrl req = "http://ip-api.com/json") := by
  refine ⟨(userIP_firstNonEmpty req).1, ?_⟩
  intro hn
  have hu := (userIP_firstNonEmpty req).2 hn
  have hc : (cleanIP req).truthy = false := by
    rw [cleanIP_of_falsy req hu]
    exact hu
  exact ⟨hu, hc, apiUrl_of_falsy req hc⟩

/-- Witness of C8: an address found on the socket only, and a request whose
only source is an empty `x-forwarded-for` header. -/
theorem candidate_address_order_witness :
    userIP (socketRequest "GET" "203.0.113.5") = JsVal.str "203.0.113.5" ∧
      apiUrl (forwardedRequest "") = "http://ip-api.com/json" :=
  ⟨(candidate_address_order (socketRequest "GET" "203.0.113.5")).1 "203.0.113.5" rfl,
    ((candidate_address_order (forwardedRequest "")).2 rfl).2.2⟩

/-- C9: for every GET request whose cleaned address `a` is non-empty and is
neither `127.0.0.1` nor `::1`, the upstream URL, which is the URL of the one
upstream call, is `http://ip-api.com/json/` followed by `a`; for the address
`203.0.113.5` it is `http://ip-api.com/json/203.0.113.5`. -/
theorem upstream_url_for_address (env : Env) (req : Request) (a : String)
    (hget : req.method = "GET") (hc : cleanIP req = JsVal.str a)
    (h0 : a ≠ "") (h1 : a ≠ "127.0.0.1") (h2 : a ≠ "::1") :
    apiUrl req = "http://ip-api.com/json/" ++ a ∧
      (handler env req).1.calls.map FetchRequest.url = ["http://ip-api.com/json/" ++ a] ∧
      (a = "203.0.113.5" → apiUrl req = "http://ip-api.com/json/203.0.113.5") := by
  have hu : apiUrl req = "http://ip-api.com/json/" ++ a := by
    unfold apiUrl
    rw [hc]
    simp [JsVal.truthy, JsVal.toStr, h0, h1, h2]
  refine ⟨hu, ?_, ?_⟩
  · rw [handler_get_calls env req hget]
    simp [fetchRequest, hu]
  · intro ha
    rw [hu, ha]
    decide

/-- Witness of C9: a GET request forwarded for `203.0.113.5`. -/
theorem upstream_url_for_address_witness :
    apiUrl (forwardedRequest "203.0.113.5") = "http://ip-api.com/json/203.0.113.5" :=
  (upstream_url_for_address (constEnv none FetchOutcome.rejected) (forwardedRequest "203.0.113.5")
    "203.0.113.5" rfl (by decide) (by decide) (by decide) (by decide)).2.2 rfl

/-- C10: for every GET request whose candidate address is `127.0.0.1` or `::1`,
or which has no candidate address (every source absent or empty), the upstream
URL, which is the URL of the one upstream call, is the bare base URL
`http://ip-api.com/json`. -/
theorem upstream_url_for_loopback (env : Env) (req : Request)
    (hget : req.method = "GET")
    (h : userIP req = JsVal.str "127.0.0.1" ∨ userIP req = JsVal.str "::1" ∨
      (userIP req).truthy = false) :
    apiUrl req = "http://ip-api.com/json" ∧
      (handler env req).1.calls.map FetchRequest.url = ["http://ip-api.com/json"] := by
  have hu : apiUrl req = "http://ip-api.com/json" := by
    rcases h with h | h | h
    · have hc := cleanIP_of_str req _ h (by decide)
      unfold apiUrl
      rw [hc]
      decide
    · have hc := cleanIP_of_str req _ h (by decide)
      unfold apiUrl
      rw [hc]
      decide
    · apply apiUrl_of_falsy
      rw [cleanIP_of_falsy req h]
      exact h
  refine ⟨hu, ?_⟩
  rw [handler_get_calls env req hget]
  simp [fetchRequest, hu]

/-- Witness of C10: a GET request whose socket address is the IPv4 loopback,
with a failing upstream. -/
theorem upstream_url_for_loopback_witness :
    apiUrl (socketRequest "GET" "127.0.0.1") = "http://ip-api.com/json" ∧
      (handler (constEnv none FetchOutcome.rejected)
        (socketRequest "GET" "127.0.0.1")).1.calls.map FetchRequest.url =
        ["http://ip-api.com/json"] :=
  upstream_url_for_loopback (constEnv none FetchOutcome.rejected)
    (socketRequest "GET" "127.0.0.1") rfl (Or.inl (by decide))

/-! ## Normalisation of the candidate address -/

theorem cleanIP_of_candidate (req : Request) (s : String) (hu : userIP req = JsVal.str s) :
    cleanIP req = JsVal.str (if s = "" then "" else cleanAddress s) := by
  by_cases hs : s = ""
  · subst hs
    rw [cleanIP_of_falsy req (by rw [hu]; rfl), hu]
    rfl
  · rw [cleanIP_of_str req s hu hs]
    simp [hs]

/-- C11 (evaluation at the failing input): on the candidate address
`[::1]:443` the normalisation of lines 34 to 36 yields the empty string, not
`::1`: only the leading bracket is removed, and the cut at the first `:`
leaves nothing. -/
theorem bracketed_loopback_normalisation :
    cleanAddress "[::1]:443" = "" ∧
      stripBrackets "[::1]:443".data = "::1]:443".data ∧
      cleanIP (forwardedRequest "[::1]:443") = JsVal.str "" := by
  decide

/-- C12: for every GET request whose candidate address is `[::1]:443`, the
upstream URL, which is the URL of the one upstream call, is the bare base URL
`http://ip-api.com/json`. -/
theorem bracketed_loopback_url (env : Env) (req : Request)
    (hget : req.method = "GET") (hu : userIP req = JsVal.str "[::1]:443") :
    apiUrl req = "http://ip-api.com/json" ∧
      (handler env req).1.calls.map FetchRequest.url = ["http://ip-api.com/json"] := by
  have hc : cleanIP req = JsVal.str "" := by
    rw [cleanIP_of_str req _ hu (by decide)]
    decide
  have hurl : apiUrl req = "http://ip-api.com/json" :=
    apiUrl_of_falsy req (by rw [hc]; rfl)
  refine ⟨hurl, ?_⟩
  rw [handler_get_calls env req hget]
  simp [fetchRequest, hurl]

/-- Witness of C12: a GET request forwarded for `[::1]:443`. -/
theorem bracketed_loopback_url_witness :
    userIP (forwardedRequest "[::1]:443") = JsVal.str "[::1]:443" ∧
      apiUrl (forwardedRequest "[::1]:443") = "http://ip-api.com/json" ∧
      (handler (constEnv none FetchOutcome.rejected)
        (forwardedRequest "[::1]:443")).1.calls.map FetchRequest.url =
        ["http://ip-api.com/json"] :=
  ⟨by decide,
    bracketed_loopback_url (constEnv none FetchOutcome.rejected) (forwardedRequest "[::1]:443")
      rfl (by decide)⟩

theorem beforeFirst_eq_splitHead (sep : Char) (cs : List Char) :
    beforeFirst sep cs = splitHead sep cs := by
  induction cs with
  | nil => rfl
  | cons c t ih =>
    by_cases hc : c = sep
    · simp [beforeFirst, splitHead, List.takeWhile_cons, hc]
    · have ih' : beforeFirst sep t = List.takeWhile (fun c => c != sep) t := ih
      simp [beforeFirst, splitHead, List.takeWhile_cons, hc, ih']

theorem trimStart_eq_dropWhile (cs : List Char) :
    trimStart cs = cs.dropWhile isJsWhiteSpace := by
  induction cs with
  | nil => rfl
  | cons c t ih =>
    cases hc : isJsWhiteSpace c
    · simp [trimStart, List.dropWhile_cons, hc]
    · simp [trimStart, List.dropWhile_cons, hc, ih]

theorem trim_eq_jsTrim (cs : List Char) : trimEnd (trimStart cs) = jsTrim cs := by
  unfold trimEnd jsTrim
  rw [trimStart_eq_dropWhile, trimStart_eq_dropWhile]

theorem removeTrailingClose_eq (cs : List Char) :
    removeTrailingClose cs = if cs.getLast? = some ']' then cs.dropLast else cs := by
  rcases List.eq_nil_or_concat cs with h | ⟨init, x, h⟩
  · subst h
    rfl
  · rw [List.concat_eq_append] at h
    subst h
    have hrev : (init ++ [x]).reverse = x :: init.reverse := by simp
    have hlast : (init ++ [x]).getLast? = some x := by simp
    have hdrop : (init ++ [x]).dropLast = init := by simp
    unfold removeTrailingClose
    rw [hrev, hlast, hdrop]
    by_cases hx : x = ']'
    · subst hx
      simp
    · have hne : ¬ (some x = some ']') := fun e => hx (Option.some.inj e)
      rw [if_neg hne]
      split
      · rename_i t heq
        exact absurd (List.cons.inj heq).1 hx
      · rfl

theorem removeLeadingOpen_eq (cs : List Char) :
    removeLeadingOpen cs = (match cs with
      | '[' :: t => t
      | _ => cs) := by
  unfold removeLeadingOpen
  split <;> rfl

theorem removeBrackets_eq_stripBrackets (cs : List Char) :
    removeTrailingClose (removeLeadingOpen cs) = stripBrackets cs := by
  rw [removeTrailingClose_eq, removeLeadingOpen_eq]
  rfl

theorem referenceAddress_eq (s : String) : referenceAddress s = cleanAddress s := by
  unfold referenceAddress cleanAddress
  rw [beforeFirst_eq_splitHead, beforeFirst_eq_splitHead, trim_eq_jsTrim,
    removeBrackets_eq_stripBrackets]

/-- C13: for every candidate address string `s`, the cleaned address is the
reference normalisation of `s` (first comma-separated token, trimmed, without
one leading `[` and one trailing `]`, cut before the first `:`); the
unbracketed IPv6 literal `2001:db8::1` yields `2001` and the upstream URL
`http://ip-api.com/json/2001`. -/
theorem cleanIP_refines_reference (req : Request) (s : String)
    (hu : userIP req = JsVal.str s) :
    cleanIP req = JsVal.str (referenceAddress s) ∧
      (s = "2001:db8::1" →
        cleanIP req = JsVal.str "2001" ∧ apiUrl req = "http://ip-api.com/json/2001") := by
  constructor
  · rw [cleanIP_of_candidate req s hu, referenceAddress_eq]
    by_cases hs : s = ""
    · subst hs
      decide
    · simp [hs]
  · intro hs
    subst hs
    have hc : cleanIP req = JsVal.str "2001" := by
      rw [cleanIP_of_str req _ hu (by decide)]
      decide
    refine ⟨hc, ?_⟩
    unfold apiUrl
    rw [hc]
    decide

/-- Witness of C13: a GET request forwarded for `2001:db8::1`. -/
theorem cleanIP_refines_reference_witness :
    cleanIP (forwardedRequest "2001:db8::1") = JsVal.str (referenceAddress "2001:db8::1") ∧
      cleanIP (forwardedRequest "2001:db8::1") = JsVal.str "2001" ∧
      apiUrl (forwardedRequest "2001:db8::1") = "http://ip-api.com/json/2001" :=
  ⟨(cleanIP_refines_reference (forwardedRequest "2001:db8::1") "2001:db8::1" (by decide)).1,
    (cleanIP_refines_reference (forwardedRequest "2001:db8::1") "2001:db8::1" (by decide)).2 rfl⟩

theorem mem_splitHead (sep x : Char) (cs : List Char) (h : x ∈ splitHead sep cs) :
    x ∈ cs ∧ x ≠ sep := by
  unfold splitHead at h
  refine ⟨(List.takeWhile_sublist _).subset h, ?_⟩
  have hp := List.mem_takeWhile_imp h
  simpa using hp

theorem mem_jsTrim (x : Char) (cs : List Char) (h : x ∈ jsTrim cs) : x ∈ cs := by
  unfold jsTrim at h
  rw [List.mem_reverse] at h
  have h1 := (List.dropWhile_sublist _).subset h
  rw [List.mem_reverse] at h1
  exact (List.dropWhile_sublist _).subset h1

theorem mem_stripBrackets (x : Char) (cs : List Char) (h : x ∈ stripBrackets cs) : x ∈ cs := by
  unfold stripBrackets at h
  have hrest : x ∈ (match cs with
      | '[' :: t => t
      | _ => cs) := by
    by_cases hl : (match cs with
        | '[' :: t => t
        | _ => cs).getLast? = some ']'
    · simp only [hl, if_true] at h
      exact (List.dropLast_sublist _).subset h
    · simpa only [hl, if_false] using h
  revert hrest
  split
  · intro hm
    exact List.mem_cons_of_mem _ hm
  · exact id

theorem cleanAddress_no_separator (s : String) :
    ':' ∉ (cleanAddress s).data ∧ ',' ∉ (cleanAddress s).data := by
  unfold cleanAddress
  constructor
  · intro h
    exact (mem_splitHead ':' ':' _ h).2 rfl
  · intro h
    have h1 := (mem_splitHead ':' ',' _ h).1
    have h2 := mem_jsTrim _ _ (mem_stripBrackets _ _ h1)
    exact (mem_splitHead ',' ',' _ h2).2 rfl

theorem cleanIP_no_separator (req : Request) (a : String) (ha : cleanIP req = JsVal.str a) :
    ':' ∉ a.data ∧ ',' ∉ a.data := by
  cases hu : userIP req with
  | undefined =>
    rw [cleanIP_of_falsy req (by rw [hu]; rfl), hu] at ha
    cases ha
  | null =>
    rw [cleanIP_of_falsy req (by rw [hu]; rfl), hu] at ha
    cases ha
  | str s =>
    rw [cleanIP_of_candidate req s hu] at ha
    have hs : a = if s = "" then "" else cleanAddress s := (JsVal.str.inj ha).symm
    by_cases h0 : s = ""
    · rw [if_pos h0] at hs
      subst hs
      decide
    · rw [if_neg h0] at hs
      subst hs
      exact cleanAddress_no_separator s

/-- C14: for every candidate address string, the cleaned address contains no
`:` and no `,`; hence so does the cleaned address of every request. -/
theorem cleaned_address_has_no_separator :
    (∀ s : String, ':' ∉ (cleanAddress s).data ∧ ',' ∉ (cleanAddress s).data) ∧
      (∀ (req : Request) (a : String), cleanIP req = JsVal.str a →
        ':' ∉ a.data ∧ ',' ∉ a.data) :=
  ⟨cleanAddress_no_separator, cleanIP_no_separator⟩

/-- Witness of C14: a request whose header is a list of addresses with a port. -/
theorem cleaned_address_has_no_separator_witness :
    ':' ∉ "10.1.2.3".data ∧ ',' ∉ "10.1.2.3".data :=
  cleaned_address_has_no_separator.2 (forwardedRequest "10.1.2.3:8080, 10.0.0.1") "10.1.2.3"
    (by decide)

theorem mem_dropLast_cons (x c : Char) (r : List Char) (h : x ∈ r.dropLast) :
    x ∈ (c :: r).dropLast := by
  cases r with
  | nil => simp at h
  | cons d r' =>
    rw [List.dropLast_cons₂]
    exact List.mem_cons_of_mem _ h

theorem not_mem_of_not_last (x : Char) (r : List Char) (hl : ¬ (r.getLast? = some x))
    (hd : x ∉ r.dropLast) : x ∉ r := by
  rcases List.eq_nil_or_concat r with h | ⟨init, y, h⟩
  · subst h
    simp
  · rw [List.concat_eq_append] at h
    subst h
    have hlast : (init ++ [y]).getLast? = some y := by simp
    have hdrop : (init ++ [y]).dropLast = init := by simp
    rw [hlast] at hl
    rw [hdrop] at hd
    intro hm
    rcases List.mem_append.mp hm with h1 | h1
    · exact hd h1
    · have : x = y := by simpa using h1
      exact hl (by rw [this])

theorem stripBrackets_clean (t : List Char) (hopen : '[' ∉ t.tail) (hclose : ']' ∉ t.dropLast) :
    '[' ∉ stripBrackets t ∧ ']' ∉ stripBrackets t := by
  have hrest : '[' ∉ (match t with
      | '[' :: r => r
      | _ => t) ∧ ']' ∉ (match t with
      | '[' :: r => r
      | _ => t).dropLast := by
    split
    · rename_i r
      exact ⟨hopen, fun h => hclose (mem_dropLast_cons _ _ _ h)⟩
    · rename_i hne
      refine ⟨?_, hclose⟩
      intro hm
      cases t with
      | nil => cases hm
      | cons c u =>
        rcases List.mem_cons.mp hm with h | h
        · exact hne u (by rw [h])
        · exact hopen h
  unfold stripBrackets
  by_cases hl : (match t with
      | '[' :: r => r
      | _ => t).getLast? = some ']'
  · simp only [hl, if_true]
    exact ⟨fun h => hrest.1 ((List.dropLast_sublist _).subset h), hrest.2⟩
  · simp only [hl, if_false]
    exact ⟨hrest.1, not_mem_of_not_last _ _ hl hrest.2⟩

/-- C15 (counterexample): the candidate address `10.0.0.1[eth0]:80` is cleaned
to `10.0.0.1[eth0]`, which contains both `[` and `]`. -/
theorem cleaned_address_keeps_inner_brackets :
    cleanIP (forwardedRequest "10.0.0.1[eth0]:80") = JsVal.str "10.0.0.1[eth0]" ∧
      cleanAddress "10.0.0.1[eth0]:80" = "10.0.0.1[eth0]" ∧
      ¬ ('[' ∉ (cleanAddress "10.0.0.1[eth0]:80").data ∧
        ']' ∉ (cleanAddress "10.0.0.1[eth0]:80").data) := by
  decide

/-- C15 (amended): for every candidate address string whose trimmed first
token has no `[` other than as its first character and no `]` other than as
its last character, the cleaned address contains no `[` and no `]`. -/
theorem cleaned_address_brackets_at_ends (s : String)
    (hopen : '[' ∉ (jsTrim (splitHead ',' s.data)).tail)
    (hclose : ']' ∉ (jsTrim (splitHead ',' s.data)).dropLast) :
    '[' ∉ (cleanAddress s).data ∧ ']' ∉ (cleanAddress s).data := by
  have hs := stripBrackets_clean _ hopen hclose
  unfold cleanAddress
  exact ⟨fun h => hs.1 (mem_splitHead _ _ _ h).1, fun h => hs.2 (mem_splitHead _ _ _ h).1⟩

/-- Witness of C15 (amended): the bracketed IPv6 literal `[2001:db8::1]`. -/
theorem cleaned_address_brackets_at_ends_witness :
    '[' ∉ (cleanAddress "[2001:db8::1]").data ∧ ']' ∉ (cleanAddress "[2001:db8::1]").data :=
  cleaned_address_brackets_at_ends "[2001:db8::1]" (by decide) (by decide)

/-! ## Pass-through of the upstream body and shape of the upstream URL -/

theorem handler_passthrough (env : Env) (req : Request) (st : Nat) (data : Json)
    (hget : req.method = "GET")
    (hok : env.fetch (fetchRequest req) = FetchOutcome.responded true st (some data))
    (hdev : env.nodeEnv ≠ some "development") :
    (handler env req).1.res.sent = [⟨200, corsHeaders, Body.json data⟩] := by
  rw [handler_get env req hget]
  unfold tryBlock
  rw [hok]
  simp [hdev, Res.status, Res.json]

/-- C16 (counterexample): outside development mode, an ok upstream response
whose body is `{status: 'fail', message: 'invalid query'}`, which is not a
location record, is sent back as it is and not replaced by the fallback
record. -/
theorem malformed_body_is_passed_through :
    (handler (constEnv none (FetchOutcome.responded true 200 (some invalidQueryBody)))
        (forwardedRequest "203.0.113.5")).1.res.sent =
        [⟨200, corsHeaders, Body.json invalidQueryBody⟩] ∧
      ¬ invalidQueryBody.isLocationRecord ∧
      invalidQueryBody ≠ fallbackRecord := by
  refine ⟨handler_passthrough _ _ 200 invalidQueryBody rfl rfl (by decide), ?_, ?_⟩
  · intro h
    have hperm : (List.map Prod.fst
        [("status", Json.str "fail"), ("message", Json.str "invalid query")]).Perm
        locationFields := h
    have hlen := hperm.length_eq
    revert hlen
    decide
  · intro h
    have hf := congrArg (fun j => j.hasField "message") h
    revert hf
    decide

/-- C16 (amended): for every GET request with NODE_ENV other than
`development`, an ok upstream response whose body parses as JSON is passed
through whatever its shape: the handler sends 200 with that body unchanged.
In every mode a JSON object body is passed through on each of its fields other
than `_debug`. -/
theorem parsed_body_is_passed_through (env : Env) (req : Request) (st : Nat) (data : Json)
    (hget : req.method = "GET")
    (hok : env.fetch (fetchRequest req) = FetchOutcome.responded true st (some data)) :
    (env.nodeEnv ≠ some "development" →
        (handler env req).1.res.sent = [⟨200, corsHeaders, Body.json data⟩]) ∧
      (∀ fs, data = Json.obj fs →
        ∃ body, (handler env req).1.res.sent = [⟨200, corsHeaders, Body.json body⟩] ∧
          ∀ k, k ≠ "_debug" → body.get? k = data.get? k) := by
  refine ⟨handler_passthrough env req st data hget hok, ?_⟩
  intro fs hfs
  subst hfs
  refine ⟨_, handler_success env req st fs hget hok, ?_⟩
  intro k hk
  by_cases hdev : env.nodeEnv = some "development"
  · simp only [hdev, if_true, Json.get?]
    rw [find_setField_ne "_debug" k _ fs hk]
  · simp only [hdev, if_false]

/-- Witness of C16 (amended): the invalid-query body outside development mode. -/
theorem parsed_body_is_passed_through_witness :
    (handler (constEnv (some "production")
        (FetchOutcome.responded true 200 (some invalidQueryBody)))
        proxiedRequest).1.res.sent = [⟨200, corsHeaders, Body.json invalidQueryBody⟩] :=
  (parsed_body_is_passed_through
    (constEnv (some "production") (FetchOutcome.responded true 200 (some invalidQueryBody)))
    proxiedRequest 200 invalidQueryBody rfl rfl).1 (by decide)

theorem string_append_cancel (p a b : String) (h : p ++ a = p ++ b) : a = b := by
  have hd := congrArg String.data h
  rw [String.data_append, String.data_append] at hd
  exact String.ext (List.append_cancel_left hd)

/-- C17 (counterexample): a GET request whose `x-forwarded-for` header is
`example.com/x?y=1` sends the upstream call to
`http://ip-api.com/json/example.com/x?y=1`, which is neither the base URL nor
the base followed by `/` and an IP literal. -/
theorem upstream_url_not_ip_literal :
    (handler (constEnv none FetchOutcome.rejected)
        (forwardedRequest "example.com/x?y=1")).1.calls.map FetchRequest.url =
        ["http://ip-api.com/json/example.com/x?y=1"] ∧
      ¬ (apiUrl (forwardedRequest "example.com/x?y=1") = "http://ip-api.com/json" ∨
        ∃ a, isIPLiteral a = true ∧
          apiUrl (forwardedRequest "example.com/x?y=1") = "http://ip-api.com/json/" ++ a) := by
  have hurl : apiUrl (forwardedRequest "example.com/x?y=1") =
      "http://ip-api.com/json/" ++ "example.com/x?y=1" := by decide
  refine ⟨?_, ?_⟩
  · rw [handler_get_calls _ _ rfl]
    simp only [fetchRequest, List.map_cons, List.map_nil, hurl]
    decide
  · rintro (h | ⟨a, ha, h⟩)
    · rw [hurl] at h
      revert h
      decide
    · rw [hurl] at h
      have hA := string_append_cancel _ _ _ h
      rw [← hA] at ha
      revert ha
      decide

/-- C17 (amended): for every GET request the URL of the one upstream call is
either the base `http://ip-api.com/json` or the base followed by `/` and the
cleaned address, a non-empty string other than `127.0.0.1` that contains no
`:` and no `,`; nothing makes it an IP literal. -/
theorem upstream_url_shape (env : Env) (req : Request) (hget : req.method = "GET") :
    (handler env req).1.calls.map FetchRequest.url = [apiUrl req] ∧
      (apiUrl req = "http://ip-api.com/json" ∨
        ∃ a, cleanIP req = JsVal.str a ∧ a ≠ "" ∧ a ≠ "127.0.0.1" ∧
          ':' ∉ a.data ∧ ',' ∉ a.data ∧ apiUrl req = "http://ip-api.com/json/" ++ a) := by
  constructor
  · rw [handler_get_calls env req hget]
    rfl
  · cases hc : cleanIP req with
    | undefined => exact Or.inl (apiUrl_of_falsy req (by rw [hc]; rfl))
    | null => exact Or.inl (apiUrl_of_falsy req (by rw [hc]; rfl))
    | str a =>
      by_cases h0 : a = ""
      · exact Or.inl (apiUrl_of_falsy req (by rw [hc, h0]; rfl))
      · by_cases h1 : a = "127.0.0.1"
        · left
          unfold apiUrl
          rw [hc, h1]
          decide
        · right
          have hsep := cleanIP_no_separator req a hc
          have h2 : a ≠ "::1" := by
            intro e
            rw [e] at hsep
            exact hsep.1 (by decide)
          refine ⟨a, rfl, h0, h1, hsep.1, hsep.2, ?_⟩
          unfold apiUrl
          rw [hc]
          simp [JsVal.truthy, JsVal.toStr, h0, h1, h2]

/-- Witness of C17 (amended): the proxied request. -/
theorem upstream_url_shape_witness :
    (handler (constEnv none FetchOutcome.rejected) proxiedRequest).1.calls.map FetchRequest.url =
        [apiUrl proxiedRequest] ∧
      (apiUrl proxiedRequest = "http://ip-api.com/json" ∨
        ∃ a, cleanIP proxiedRequest = JsVal.str a ∧ a ≠ "" ∧ a ≠ "127.0.0.1" ∧
          ':' ∉ a.data ∧ ',' ∉ a.data ∧
          apiUrl proxiedRequest = "http://ip-api.com/json/" ++ a) :=
  upstream_url_shape (constEnv none FetchOutcome.rejected) proxiedRequest rfl

/-! ## The upstream call and the debug object -/

/-- C18: for every GET request, whatever the upstream does, the handler issues
exactly one upstream call: method GET, the constructed URL, and the header
`User-Agent: Mozilla/5.0 (compatible; Geolocation-App/1.0)`; there is no
second call after a failure. -/
theorem one_upstream_call (env : Env) (req : Request) (hget : req.method = "GET") :
    (handler env req).1.calls =
        [⟨apiUrl req, "GET",
          [("User-Agent", "Mozilla/5.0 (compatible; Geolocation-App/1.0)")]⟩] ∧
      (handler env req).1.calls.length = 1 := by
  rw [handler_get_calls env req hget]
  exact ⟨rfl, rfl⟩

/-- Witness of C18: the proxied request against an upstream that rejects. -/
theorem one_upstream_call_witness :
    (handler (constEnv none FetchOutcome.rejected) proxiedRequest).1.calls =
        [⟨"http://ip-api.com/json/1.2.3.4", "GET",
          [("User-Agent", "Mozilla/5.0 (compatible; Geolocation-App/1.0)")]⟩] ∧
      (handler (constEnv none FetchOutcome.rejected) proxiedRequest).1.calls.length = 1 :=
  one_upstream_call (constEnv none FetchOutcome.rejected) proxiedRequest rfl

theorem find_setField_value (k : String) (v : Json) (fs : List (String × Json)) :
    (setField k v fs).find? (fun p => p.1 == k) = some (k, v) := by
  induction fs with
  | nil => simp [setField, List.find?_cons]
  | cons p t ih =>
    obtain ⟨k', v'⟩ := p
    by_cases hk : k' = k
    · simp [setField, hk, List.find?_cons]
    · have hk' : (k' == k) = false := beq_eq_false_iff_ne.mpr hk
      simp [setField, hk, List.find?_cons, hk', ih]

theorem debugInfo_userIP (req : Request) :
    (debugInfo req).get? "userIP" = (cleanIP req).toJson? := by
  unfold debugInfo
  cases cleanIP req <;> simp [JsVal.toJson?, definedProps, Json.get?, List.find?_cons]

theorem debugInfo_apiUrl (req : Request) :
    (debugInfo req).get? "apiUrl" = some (Json.str (apiUrl req)) := by
  unfold debugInfo
  cases cleanIP req <;> simp [JsVal.toJson?, definedProps, Json.get?, List.find?_cons]

theorem debugInfo_headers (req : Request) :
    ∃ hdrs, (debugInfo req).get? "headers" = some hdrs ∧
      hdrs.get? "x-forwarded-for" = (req.headers "x-forwarded-for").map Json.str ∧
      hdrs.get? "x-real-ip" = (req.headers "x-real-ip").map Json.str := by
  refine ⟨Json.obj (definedProps
        [("x-forwarded-for", (req.headers "x-forwarded-for").map Json.str),
         ("x-real-ip", (req.headers "x-real-ip").map Json.str)]), ?_, ?_, ?_⟩
  · unfold debugInfo
    cases cleanIP req <;> simp [JsVal.toJson?, definedProps, Json.get?, List.find?_cons]
  · cases req.headers "x-forwarded-for" <;> cases req.headers "x-real-ip" <;>
      simp [definedProps, Json.get?, List.find?_cons]
  · cases req.headers "x-forwarded-for" <;> cases req.headers "x-real-ip" <;>
      simp [definedProps, Json.get?, List.find?_cons]

/-- C19: in development mode, on an ok upstream response with a JSON object
body, the response body has a `_debug` field whose `userIP` is the cleaned
address (the string itself when the cleaned address is a string, `null` when
it is `null`, and no property when it is `undefined`), whose `apiUrl` is the
URL of the upstream call, and whose `headers` hold the `x-forwarded-for` and
`x-real-ip` values of the request as received. -/
theorem debug_field_contents (env : Env) (req : Request) (st : Nat)
    (fs : List (String × Json))
    (hget : req.method = "GET") (hdev : env.nodeEnv = some "development")
    (hok : env.fetch (fetchRequest req) = FetchOutcome.responded true st (some (Json.obj fs))) :
    ∃ body dbg hdrs,
      (handler env req).1.res.sent = [⟨200, corsHeaders, Body.json body⟩] ∧
      body.get? "_debug" = some dbg ∧
      (∀ a, cleanIP req = JsVal.str a → dbg.get? "userIP" = some (Json.str a)) ∧
      (cleanIP req = JsVal.null → dbg.get? "userIP" = some Json.null) ∧
      (cleanIP req = JsVal.undefined → dbg.get? "userIP" = none) ∧
      dbg.get? "apiUrl" = some (Json.str (apiUrl req)) ∧
      (handler env req).1.calls.map FetchRequest.url = [apiUrl req] ∧
      dbg.get? "headers" = some hdrs ∧
      (∀ v, req.headers "x-forwarded-for" = some v →
        hdrs.get? "x-forwarded-for" = some (Json.str v)) ∧
      (req.headers "x-forwarded-for" = none → hdrs.get? "x-forwarded-for" = none) ∧
      (∀ v, req.headers "x-real-ip" = some v → hdrs.get? "x-real-ip" = some (Json.str v)) ∧
      (req.headers "x-real-ip" = none → hdrs.get? "x-real-ip" = none) := by
  obtain ⟨hdrs, h1, h2, h3⟩ := debugInfo_headers req
  have hu := debugInfo_userIP req
  refine ⟨Json.obj (setField "_debug" (debugInfo req) fs), debugInfo req, hdrs, ?_, ?_,
    ?_, ?_, ?_, debugInfo_apiUrl req, ?_, h1, ?_, ?_, ?_, ?_⟩
  · rw [handler_success env req st fs hget hok]
    simp [hdev]
  · simp only [Json.get?]
    rw [find_setField_value]
    rfl
  · intro a ha
    rw [hu, ha]
    rfl
  · intro ha
    rw [hu, ha]
    rfl
  · intro ha
    rw [hu, ha]
    rfl
  · rw [handler_get_calls env req hget]
    rfl
  · intro v hv
    rw [h2, hv]
    rfl
  · intro hv
    rw [h2, hv]
    rfl
  · intro v hv
    rw [h3, hv]
    rfl
  · intro hv
    rw [h3, hv]
    rfl

/-- Witness of C19: the proxied request in development mode; its `_debug`
field holds `1.2.3.4`, the URL `http://ip-api.com/json/1.2.3.4` and the two
header values as received. -/
theorem debug_field_contents_witness :
    ∃ body dbg hdrs,
      (handler (constEnv (some "development")
        (FetchOutcome.responded true 200 (some sampleRecord))) proxiedRequest).1.res.sent =
        [⟨200, corsHeaders, Body.json body⟩] ∧
      body.get? "_debug" = some dbg ∧
      dbg.get? "userIP" = some (Json.str "1.2.3.4") ∧
      dbg.get? "apiUrl" = some (Json.str "http://ip-api.com/json/1.2.3.4") ∧
      (handler (constEnv (some "development")
        (FetchOutcome.responded true 200 (some sampleRecord)))
        proxiedRequest).1.calls.map FetchRequest.url = ["http://ip-api.com/json/1.2.3.4"] ∧
      dbg.get? "headers" = some hdrs ∧
      hdrs.get? "x-forwarded-for" = some (Json.str "1.2.3.4, 5.6.7.8") ∧
      hdrs.get? "x-real-ip" = some (Json.str "9.9.9.9") := by
  obtain ⟨body, dbg, hdrs, h1, h2, h3, _, _, h6, h7, h8, h9, _, h11, _⟩ :=
    debug_field_contents
      (constEnv (some "development") (FetchOutcome.responded true 200 (some sampleRecord)))
      proxiedRequest 200 _ rfl rfl rfl
  have hurl : apiUrl proxiedRequest = "http://ip-api.com/json/1.2.3.4" := by decide
  rw [hurl] at h6 h7
  exact ⟨body, dbg, hdrs, h1, h2, h3 "1.2.3.4" (by decide), h6, h7, h8,
    h9 "1.2.3.4, 5.6.7.8" rfl, h11 "9.9.9.9" rfl⟩

/-! ## The client-side services -/

/-- C20: `getIPLocationData` always resolves: to the data of the response when
the request to the IP-API base URL succeeds, and to the fixed mock record when
it fails; `getAddressFromCoordinates`, `getNearbyPlaces` and `searchLocation`
reject with the error of the failed request. -/
theorem ip_location_never_rejects {ε : Type} (axiosGet : AxiosGet ε) :
    (∃ d, getIPLocationData axiosGet = Except.ok d) ∧
      (∀ r, axiosGet "http://ip-api.com/json" [] = Except.ok r →
        getIPLocationData axiosGet = Except.ok r.data) ∧
      (∀ e, axiosGet "http://ip-api.com/json" [] = Except.error e →
        getIPLocationData axiosGet = Except.ok (Json.obj
          [("query", Json.str "8.8.8.8"),
           ("status", Json.str "success"),
           ("country", Json.str "United States"),
           ("countryCode", Json.str "US"),
           ("region", Json.str "CA"),
           ("regionName", Json.str "California"),
           ("city", Json.str "Mountain View"),
           ("zip", Json.str "94035"),
           ("lat", Json.num (37386 / 1000)),
           ("lon", Json.num (-1220838 / 10000)),
           ("timezone", Json.str "America/Los_Angeles"),
           ("isp", Json.str "Google LLC"),
           ("org", Json.str "Google Public DNS"),
           ("as", Json.str "AS15169 Google LLC")])) ∧
      (∀ lat lon e,
        axiosGet "https://nominatim.openstreetmap.org/reverse"
          [("lat", lat), ("lon", lon), ("format", Json.str "json"),
           ("addressdetails", Json.num 1)] = Except.error e →
        getAddressFromCoordinates axiosGet lat lon = Except.error e) ∧
      (∀ lat lon e,
        axiosGet "https://nominatim.openstreetmap.org/search"
          [("lat", lat), ("lon", lon), ("format", Json.str "json"), ("limit", Json.num 10),
           ("addressdetails", Json.num 1), ("extratags", Json.num 1)] = Except.error e →
        getNearbyPlaces axiosGet lat lon = Except.error e) ∧
      (∀ query e,
        axiosGet "https://nominatim.openstreetmap.org/search"
          [("q", query), ("format", Json.str "json"), ("limit", Json.num 5),
           ("addressdetails", Json.num 1)] = Except.error e →
        searchLocation axiosGet query = Except.error e) := by
  have hbase : IP_API_BASE_URL = "http://ip-api.com/json" := rfl
  have hrev : NOMINATIM_BASE_URL ++ "/reverse" =
      "https://nominatim.openstreetmap.org/reverse" := by decide
  have hsearch : NOMINATIM_BASE_URL ++ "/search" =
      "https://nominatim.openstreetmap.org/search" := by decide
  refine ⟨?_, ?_, ?_, ?_, ?_, ?_⟩
  · unfold getIPLocationData
    cases axiosGet IP_API_BASE_URL [] with
    | ok r => exact ⟨r.data, rfl⟩
    | error e => exact ⟨mockRecord, rfl⟩
  · intro r h
    unfold getIPLocationData
    rw [hbase, h]
  · intro e h
    unfold getIPLocationData
    rw [hbase, h]
    rfl
  · intro lat lon e h
    unfold getAddressFromCoordinates
    rw [hrev, h]
  · intro lat lon e h
    unfold getNearbyPlaces
    rw [hsearch, h]
  · intro query e h
    unfold searchLocation
    rw [hsearch, h]

/-- Witness of C20: an axios that fails every request, and one that succeeds. -/
theorem ip_location_never_rejects_witness :
    getIPLocationData (failingAxios "Network Error") = Except.ok mockRecord ∧
      getIPLocationData (succeedingAxios sampleRecord) = Except.ok sampleRecord ∧
      getAddressFromCoordinates (failingAxios "Network Error") (Json.num 37) (Json.num (-122)) =
        Except.error "Network Error" ∧
      getNearbyPlaces (failingAxios "Network Error") (Json.num 37) (Json.num (-122)) =
        Except.error "Network Error" ∧
      searchLocation (failingAxios "Network Error") (Json.str "Paris") =
        Except.error "Network Error" :=
  ⟨(ip_location_never_rejects (failingAxios "Network Error")).2.2.1 "Network Error" rfl,
    (ip_location_never_rejects (succeedingAxios sampleRecord)).2.1 ⟨200, sampleRecord⟩ rfl,
    (ip_location_never_rejects (failingAxios "Network Error")).2.2.2.1 _ _ "Network Error" rfl,
    (ip_location_never_rejects (failingAxios "Network Error")).2.2.2.2.1 _ _ "Network Error" rfl,
    (ip_location_never_rejects (failingAxios "Network Error")).2.2.2.2.2 _ "Network Error" rfl⟩

/-! ## The IPv6 loopback comparison, blank forwarded tokens and the fixed origin -/

theorem cleanIP_ne_ipv6_loopback (req : Request) : cleanIP req ≠ JsVal.str "::1" := by
  intro h
  exact (cleanIP_no_separator req "::1" h).1 (by decide)

/-- C21: the cleaned address is never `::1`, so the URL built with the
condition `cleanIP && cleanIP !== '127.0.0.1' && cleanIP !== '::1'` and the
URL built with the condition `cleanIP && cleanIP !== '127.0.0.1'` are the same
for every request. -/
theorem ipv6_loopback_comparison_never_decides (req : Request) :
    cleanIP req ≠ JsVal.str "::1" ∧ apiUrl req = apiUrlShortCondition req := by
  have hne := cleanIP_ne_ipv6_loopback req
  refine ⟨hne, ?_⟩
  unfold apiUrl apiUrlShortCondition
  by_cases hc : (cleanIP req).truthy = true ∧ cleanIP req ≠ JsVal.str "127.0.0.1"
  · have hc3 : (cleanIP req).truthy = true ∧ cleanIP req ≠ JsVal.str "127.0.0.1" ∧
        cleanIP req ≠ JsVal.str "::1" := ⟨hc.1, hc.2, hne⟩
    rw [if_pos hc3, if_pos hc]
  · have hc3 : ¬ ((cleanIP req).truthy = true ∧ cleanIP req ≠ JsVal.str "127.0.0.1" ∧
        cleanIP req ≠ JsVal.str "::1") := fun h => hc ⟨h.1, h.2.1⟩
    rw [if_neg hc3, if_neg hc]

theorem jsTrim_blank (cs : List Char) (h : cs.all isJsWhiteSpace = true) : jsTrim cs = [] := by
  have hd : cs.dropWhile isJsWhiteSpace = [] := by
    rw [List.dropWhile_eq_nil_iff]
    intro x hx
    exact List.all_eq_true.mp h x hx
  unfold jsTrim
  rw [hd]
  rfl

theorem jsTrim_colon (u : List Char) : ∃ w, jsTrim (':' :: u) = ':' :: w := by
  have hws : ¬ (isJsWhiteSpace ':' = true) := by decide
  unfold jsTrim
  rw [List.dropWhile_cons_of_neg hws, List.reverse_cons, List.dropWhile_append]
  by_cases he : (List.dropWhile isJsWhiteSpace u.reverse).isEmpty = true
  · rw [if_pos he, List.dropWhile_cons_of_neg hws]
    exact ⟨[], rfl⟩
  · rw [if_neg he]
    exact ⟨(List.dropWhile isJsWhiteSpace u.reverse).reverse, by simp⟩

theorem stripBrackets_colon (w : List Char) : ∃ z, stripBrackets (':' :: w) = ':' :: z := by
  have hm : (match (':' :: w) with
      | '[' :: t => t
      | _ => ':' :: w) = ':' :: w := by
    split
    · rename_i t heq
      exact absurd (List.cons.inj heq).1 (by decide)
    · rfl
  unfold stripBrackets
  simp only [hm]
  by_cases hl : (':' :: w).getLast? = some ']'
  · rw [if_pos hl]
    cases w with
    | nil =>
      exfalso
      revert hl
      decide
    | cons d w' =>
      rw [List.dropLast_cons₂]
      exact ⟨_, rfl⟩
  · rw [if_neg hl]
    exact ⟨w, rfl⟩

theorem cleanAddress_unusable (v : String)
    (htok : (splitHead ',' v.data).all isJsWhiteSpace = true ∨
      (splitHead ',' v.data).head? = some ':') :
    cleanAddress v = "" := by
  unfold cleanAddress
  rcases htok with h | h
  · rw [jsTrim_blank _ h]
    rfl
  · cases htk : splitHead ',' v.data with
    | nil =>
      rw [htk] at h
      cases h
    | cons c u =>
      rw [htk] at h
      have hc : c = ':' := Option.some.inj h
      subst hc
      obtain ⟨w, hw⟩ := jsTrim_colon u
      obtain ⟨z, hz⟩ := stripBrackets_colon w
      rw [hw, hz]
      rfl

/-- C22: a non-empty `x-forwarded-for` header is the candidate address
whatever `x-real-ip` and the connection addresses hold; when its first
comma-separated token is blank or starts with `:`, the cleaned address is the
empty string and the upstream URL, which is the URL of the one upstream call,
is the bare base URL. -/
theorem forwarded_header_shadows_other_sources (env : Env) (req : Request) (v : String)
    (hget : req.method = "GET")
    (hx : req.headers "x-forwarded-for" = some v) (hv : v ≠ "")
    (htok : (splitHead ',' v.data).all isJsWhiteSpace = true ∨
      (splitHead ',' v.data).head? = some ':') :
    userIP req = JsVal.str v ∧ cleanIP req = JsVal.str "" ∧
      apiUrl req = "http://ip-api.com/json" ∧
      (handler env req).1.calls.map FetchRequest.url = ["http://ip-api.com/json"] := by
  have hu := userIP_of_forwarded req v hx hv
  have hc : cleanIP req = JsVal.str "" := by
    rw [cleanIP_of_str req v hu hv, cleanAddress_unusable v htok]
  have hurl : apiUrl req = "http://ip-api.com/json" :=
    apiUrl_of_falsy req (by rw [hc]; rfl)
  refine ⟨hu, hc, hurl, ?_⟩
  rw [handler_get_calls env req hget]
  simp [fetchRequest, hurl]

/-- Witness of C22: the header values `, 5.6.7.8` and `::ffff:10.0.0.1` on a
request that also has an `x-real-ip` header and a connection address. -/
theorem forwarded_header_shadows_other_sources_witness :
    (cleanIP (shadowedRequest ", 5.6.7.8") = JsVal.str "" ∧
        apiUrl (shadowedRequest ", 5.6.7.8") = "http://ip-api.com/json") ∧
      (cleanIP (shadowedRequest "::ffff:10.0.0.1") = JsVal.str "" ∧
        apiUrl (shadowedRequest "::ffff:10.0.0.1") = "http://ip-api.com/json") :=
  ⟨⟨(forwarded_header_shadows_other_sources (constEnv none FetchOutcome.rejected)
        (shadowedRequest ", 5.6.7.8") ", 5.6.7.8" rfl rfl (by decide)
        (Or.inl (by decide))).2.1,
      (forwarded_header_shadows_other_sources (constEnv none FetchOutcome.rejected)
        (shadowedRequest ", 5.6.7.8") ", 5.6.7.8" rfl rfl (by decide)
        (Or.inl (by decide))).2.2.1⟩,
    ⟨(forwarded_header_shadows_other_sources (constEnv none FetchOutcome.rejected)
        (shadowedRequest "::ffff:10.0.0.1") "::ffff:10.0.0.1" rfl rfl (by decide)
        (Or.inr (by decide))).2.1,
      (forwarded_header_shadows_other_sources (constEnv none FetchOutcome.rejected)
        (shadowedRequest "::ffff:10.0.0.1") "::ffff:10.0.0.1" rfl rfl (by decide)
        (Or.inr (by decide))).2.2.1⟩⟩

theorem apiUrl_cases (req : Request) :
    apiUrl req = "http://ip-api.com/json" ∨
      apiUrl req = "http://ip-api.com/json/" ++ (cleanIP req).toStr := by
  unfold apiUrl
  split
  · exact Or.inr rfl
  · exact Or.inl rfl

/-- C23: for every GET request, whatever its headers and connection addresses,
the URL of the one upstream call starts with `http://ip-api.com/json` and is
either exactly that prefix or that prefix followed by `/` and further
characters. -/
theorem upstream_url_fixed_origin (env : Env) (req : Request) (hget : req.method = "GET") :
    ∃ rest,
      (handler env req).1.calls.map FetchRequest.url = ["http://ip-api.com/json" ++ rest] ∧
      apiUrl req = "http://ip-api.com/json" ++ rest ∧
      "http://ip-api.com/json".data <+: (apiUrl req).data ∧
      (rest = "" ∨ ∃ tail, rest = "/" ++ tail) := by
  have hkey : ∃ rest, apiUrl req = "http://ip-api.com/json" ++ rest ∧
      (rest = "" ∨ ∃ tail, rest = "/" ++ tail) := by
    rcases apiUrl_cases req with h | h
    · exact ⟨"", by rw [h]; rfl, Or.inl rfl⟩
    · refine ⟨"/" ++ (cleanIP req).toStr, ?_, Or.inr ⟨_, rfl⟩⟩
      have hs : "http://ip-api.com/json/" = "http://ip-api.com/json" ++ "/" := by decide
      rw [h, hs, String.append_assoc]
  obtain ⟨rest, hrest, hshape⟩ := hkey
  refine ⟨rest, ?_, hrest, ?_, hshape⟩
  · rw [handler_get_calls env req hget]
    simp [fetchRequest, hrest]
  · rw [hrest, String.data_append]
    exact List.prefix_append _ _

/-- Witness of C23: a GET request whose header tries to name another host. -/
theorem upstream_url_fixed_origin_witness :
    ∃ rest,
      (handler (constEnv none FetchOutcome.rejected)
        (forwardedRequest "@evil.example/x")).1.calls.map FetchRequest.url =
        ["http://ip-api.com/json" ++ rest] ∧
      apiUrl (forwardedRequest "@evil.example/x") = "http://ip-api.com/json" ++ rest ∧
      "http://ip-api.com/json".data <+: (apiUrl (forwardedRequest "@evil.example/x")).data ∧
      (rest = "" ∨ ∃ tail, rest = "/" ++ tail) :=
  upstream_url_fixed_origin (constEnv none FetchOutcome.rejected)
    (forwardedRequest "@evil.example/x") rfl

end IpLocation
